import Mathlib

/-!
Verification of the CodePipeline Slack notification Lambda
(src/v1/src/app.js) against its natural-language specification.

The JavaScript module is shallowly embedded: the renderer part of
processEvent becomes the pure function slackMessageOf, the response
classification callback becomes processResponse, and the handler with
its module-level mutable cache (webhookUrl, secret,
decodedBinarySecret) becomes a pure transition function on an explicit
ProcState record.  JavaScript string-template interpolation of an
undefined value prints the text "undefined"; that behaviour is modelled
by jsStr.  JavaScript truthiness of a possibly-undefined string (false
exactly on undefined and on the empty string) is modelled by jsTruthy.
-/

namespace SlackNotify

/-- JavaScript template interpolation of a possibly-undefined string:
an undefined value renders as the literal text "undefined". -/
def jsStr : Option String → String
  | none => "undefined"
  | some s => s

/-- JavaScript truthiness of a possibly-undefined string: false exactly
for undefined and for the empty string. -/
def jsTruthy : Option String → Bool
  | none => false
  | some s => s ≠ ""

/-- The detail sub-record of the inbound event (app.js lines 117-120).
action, stage and state may be absent; pipeline is a required string. -/
structure EventDetail where
  action : Option String
  stage : Option String
  pipeline : String
  state : Option String
deriving Repr, DecidableEq

/-- The inbound pipeline event (app.js lines 112-120).  The time field
is modelled by the result of standard date parsing: milliseconds since
the epoch, as computed by new Date(message.time).getTime(). -/
structure PipelineEvent where
  detailType : String
  region : String
  timeMs : Int
  detail : EventDetail
deriving Repr, DecidableEq

/-- One attachment of the Slack message (app.js lines 157-166). -/
structure Attachment where
  fallback : String
  color : String
  title : String
  title_link : String
  text : String
  footer : String
  mrkdwn_in : List String
  ts : ℚ
deriving Repr, DecidableEq

/-- The rendered chat message (app.js lines 154-168). -/
structure SlackMessage where
  channel : String
  attachments : List Attachment
deriving Repr, DecidableEq

/-- A color/icon pair produced by the severity switch. -/
structure Severity where
  color : String
  icon : String
deriving Repr, DecidableEq

/-- The switch statement on detail.state (app.js lines 122-150): the
variables start at the gray/warning defaults and each case overwrites
them; an unmatched or absent state keeps the defaults.  The comparison
is the exact string comparison of a JavaScript switch. -/
def severityOf (state : Option String) : Severity :=
  if state = some "STARTED" then ⟨"#0073bb", ":arrows_counterclockwise:"⟩
  else if state = some "RESUMED" then ⟨"#0073bb", ":arrows_counterclockwise:"⟩
  else if state = some "FAILED" then ⟨"#d13212", ":x:"⟩
  else if state = some "SUPERSEDED" then ⟨"#d5dbdb", ":grey_exclamation:"⟩
  else if state = some "CANCELED" then ⟨"#d5dbdb", ":grey_exclamation:"⟩
  else if state = some "SUCCEEDED" then ⟨"#1d8102", ":heavy_check_mark:"⟩
  else ⟨"#d5dbdb", ":grey_exclamation:"⟩

/-- The console URL template used for title_link (app.js line 161). -/
def consoleLink (region pipeline : String) : String :=
  "https://console.aws.amazon.com/codepipeline/home?region=" ++ region
    ++ "#/view/" ++ pipeline

/-- The renderer part of processEvent (app.js lines 108-201): builds
the slackMessage value from the event, choosing the Action, Stage or
Pipeline shape by JavaScript truthiness of detail.action and then
detail.stage. -/
def slackMessageOf (slackChannel : String) (message : PipelineEvent) : SlackMessage :=
  let detailType := message.detailType
  let region := message.region
  let time : ℚ := (message.timeMs : ℚ) / 1000
  let action := message.detail.action
  let stage := message.detail.stage
  let pipeline := message.detail.pipeline
  let state := message.detail.state
  let sev := severityOf state
  let icon := sev.icon
  let color := sev.color
  if jsTruthy action then
    { channel := slackChannel
      attachments := [
        { fallback := "The action \"" ++ jsStr action ++ "\" of the stage \""
            ++ jsStr stage ++ "\" for CodePipeline \"" ++ pipeline
            ++ "\" in region \"" ++ region ++ "\" has " ++ jsStr state ++ "."
          color := color
          title := pipeline ++ " | " ++ jsStr stage
          title_link := consoleLink region pipeline
          text := icon ++ " " ++ jsStr action ++ " *" ++ jsStr state ++ "*"
          footer := detailType ++ " | " ++ region
          mrkdwn_in := ["text"]
          ts := time }] }
  else if jsTruthy stage then
    { channel := slackChannel
      attachments := [
        { fallback := "The stage \"" ++ jsStr stage ++ "\" for CodePipeline \""
            ++ pipeline ++ "\" in region \"" ++ region ++ "\" has "
            ++ jsStr state ++ "."
          color := color
          title := pipeline ++ " | " ++ jsStr stage
          title_link := consoleLink region pipeline
          text := icon ++ " *" ++ jsStr state ++ "*"
          footer := detailType ++ " | " ++ region
          mrkdwn_in := ["text"]
          ts := time }] }
  else
    { channel := slackChannel
      attachments := [
        { fallback := "The CodePipeline \"" ++ pipeline ++ "\" in region \""
            ++ region ++ "\" has " ++ jsStr state ++ "."
          color := color
          title := pipeline
          title_link := consoleLink region pipeline
          text := icon ++ " *" ++ jsStr state ++ "*"
          footer := detailType ++ " | " ++ region
          mrkdwn_in := ["text"]
          ts := time }] }

/-- The HTTP response observed by the postMessage callback (app.js
lines 93-99). -/
structure HttpResponse where
  statusCode : Nat
  statusMessage : String
deriving Repr, DecidableEq

/-- The response-classification callback passed to postMessage (app.js
lines 203-214): none models callback(null); some e models callback(e). -/
def processResponse (response : HttpResponse) : Option String :=
  if response.statusCode < 400 then
    none
  else if response.statusCode < 500 then
    none
  else
    some ("Server error when processing message: " ++ toString response.statusCode
      ++ " - " ++ response.statusMessage)

/-- processEvent (app.js lines 108-215): renders the message and, given
the HTTP response the post produced, computes the callback outcome. -/
def processEvent (slackChannel : String) (message : PipelineEvent)
    (response : HttpResponse) : SlackMessage × Option String :=
  (slackMessageOf slackChannel message, processResponse response)

example : (severityOf (some "FAILED")).color = "#d13212" := by decide
example : (severityOf none).icon = ":grey_exclamation:" := by decide
example : jsTruthy (some "") = false := by decide

/-- Value of one base64 alphabet character; padding and any other
character carry no bits (the Node decoder skips them). -/
def base64DecVal (c : Char) : Option Nat :=
  if 'A' ≤ c ∧ c ≤ 'Z' then some (c.toNat - 65)
  else if 'a' ≤ c ∧ c ≤ 'z' then some (c.toNat - 97 + 26)
  else if '0' ≤ c ∧ c ≤ '9' then some (c.toNat - 48 + 52)
  else if c = '+' then some 62
  else if c = '/' then some 63
  else none

/-- Regroups a stream of 6-bit values into 8-bit bytes, carrying the
accumulated bits and their count. -/
def sextetsToBytes : List Nat → Nat → Nat → List Nat
  | [], _, _ => []
  | v :: rest, acc, nbits =>
    let acc2 := acc * 64 + v
    let nbits2 := nbits + 6
    if 8 ≤ nbits2 then
      acc2 / 2 ^ (nbits2 - 8) :: sextetsToBytes rest (acc2 % 2 ^ (nbits2 - 8)) (nbits2 - 8)
    else
      sextetsToBytes rest acc2 nbits2

/-- Models new Buffer(s, base64).toString(ascii) from app.js lines
253-254: base64-decode the string to bytes, then read each byte as an
ascii character with the high bit masked off. -/
def bufferBase64ToAscii (s : String) : String :=
  String.mk ((sextetsToBytes (s.data.filterMap base64DecVal) 0 0).map
    (fun b => Char.ofNat (b % 128)))

/-- The module-level mutable variables of app.js lines 70-72: the
cached webhook URL, and the secret / decodedBinarySecret scratch
variables.  none models an undefined variable. -/
structure ProcState where
  webhookUrl : Option String
  secret : Option String
  decodedBinarySecret : Option String
deriving Repr, DecidableEq

/-- The data record returned by a successful getSecretValue call: a
field is none when absent, so the SecretString-in-data membership test
of app.js line 250 is isSome on the first field. -/
structure SecretData where
  SecretString : Option String
  SecretBinary : Option String
deriving Repr, DecidableEq

/-- What the secret store replies to the single getSecretValue call:
an error code or a data record. -/
inductive SecretsResult where
  | err (code : String)
  | ok (data : SecretData)
deriving Repr, DecidableEq

/-- The process-start configuration read from the environment (app.js
lines 61-67), restricted to the fields the handler consults. -/
structure Config where
  channel : String
  webhookUrlSecretArn : Option String
deriving Repr, DecidableEq

/-- Observable outcome of a single handler invocation: a message
delivered by POST to a webhook URL with the classified callback value,
a thrown secret-store error, or the fixed configuration error passed
to the callback. -/
inductive InvocationResult where
  | delivered (url : String) (msg : SlackMessage) (cb : Option String)
  | thrown (code : String)
  | noConfig (cb : String)
deriving Repr, DecidableEq

/-- The five error codes that app.js lines 226-245 rethrow. -/
def rethrownCodes : List String :=
  ["DecryptionFailureException", "InternalServiceErrorException",
   "InvalidParameterException", "InvalidRequestException",
   "ResourceNotFoundException"]

/-- exports.handler (app.js lines 218-264) as a transition on the
module state.  Inputs beyond the event are the environment the real
handler would observe: what the secret store would reply to a
getSecretValue call, and the HTTP response the webhook would return to
the POST.  The result carries the invocation outcome, the module state
after the invocation, and the number of getSecretValue calls made. -/
def handler (cfg : Config) (st : ProcState) (store : SecretsResult)
    (event : PipelineEvent) (response : HttpResponse) :
    InvocationResult × ProcState × Nat :=
  if jsTruthy st.webhookUrl then
    (.delivered (jsStr st.webhookUrl) (slackMessageOf cfg.channel event)
        (processResponse response),
     st, 0)
  else if jsTruthy cfg.webhookUrlSecretArn then
    match store with
    | .err code =>
      if code ∈ rethrownCodes then
        (.thrown code, st, 1)
      else
        let st2 : ProcState :=
          { st with webhookUrl := some ("https://" ++ jsStr st.secret) }
        (.delivered ("https://" ++ jsStr st.secret)
            (slackMessageOf cfg.channel event) (processResponse response),
         st2, 1)
    | .ok data =>
      let st1 : ProcState :=
        match data.SecretString with
        | some s => { st with secret := some s }
        | none =>
          let decoded := bufferBase64ToAscii (jsStr data.SecretBinary)
          { st with decodedBinarySecret := some decoded }
      let st2 : ProcState :=
        { st1 with webhookUrl := some ("https://" ++ jsStr st1.secret) }
      (.delivered ("https://" ++ jsStr st1.secret)
          (slackMessageOf cfg.channel event) (processResponse response),
       st2, 1)
  else
    (.noConfig "Hook URL has not been set.", st, 0)

/-- The state of a freshly started process: all three module variables
undefined. -/
def freshState : ProcState := ⟨none, none, none⟩

example : bufferBase64ToAscii "aG9va3M=" = "hooks" := by decide

/-- The severity table as the (amended) specification words it: a
case-sensitive lookup giving the color/icon pair, defaulting to
gray/warning on any unlisted or missing state. -/
def specSeverityTable (s : Option String) : String × String :=
  if s = some "STARTED" ∨ s = some "RESUMED" then
    ("#0073bb", ":arrows_counterclockwise:")
  else if s = some "FAILED" then ("#d13212", ":x:")
  else if s = some "SUPERSEDED" ∨ s = some "CANCELED" then
    ("#d5dbdb", ":grey_exclamation:")
  else if s = some "SUCCEEDED" then ("#1d8102", ":heavy_check_mark:")
  else ("#d5dbdb", ":grey_exclamation:")

/-- The six state strings named by the severity table. -/
def namedStates : List (Option String) :=
  [some "STARTED", some "RESUMED", some "FAILED",
   some "SUPERSEDED", some "CANCELED", some "SUCCEEDED"]

/-- Sample action-level event; its time field 1500 is the standard
parse of the instant 1.5 seconds after the epoch. -/
def sampleActionEvent : PipelineEvent :=
  { detailType := "CodePipeline Action Execution State Change"
    region := "us-east-1"
    timeMs := 1500
    detail := { action := some "Build", stage := some "S",
                pipeline := "P", state := some "FAILED" } }

/-- Sample stage-level event: no action, a stage. -/
def sampleStageEvent : PipelineEvent :=
  { detailType := "CodePipeline Stage Execution State Change"
    region := "us-east-1"
    timeMs := 2000
    detail := { action := none, stage := some "Deploy",
                pipeline := "P", state := some "SUCCEEDED" } }

/-- Sample pipeline-level event: neither action nor stage, and a state
outside the severity table. -/
def samplePipelineEvent : PipelineEvent :=
  { detailType := "CodePipeline Pipeline Execution State Change"
    region := "eu-west-1"
    timeMs := 0
    detail := { action := none, stage := none,
                pipeline := "Q", state := none } }

/-- Sample event whose action field is present but the empty string. -/
def sampleEmptyActionEvent : PipelineEvent :=
  { detailType := "CodePipeline Action Execution State Change"
    region := "us-east-1"
    timeMs := 1500
    detail := { action := some "", stage := some "Deploy",
                pipeline := "P", state := some "STARTED" } }

/-- C1, counterexample: the severity mapping is not case-insensitive.
The lowercase state failed maps to the default gray/warning pair,
while FAILED maps to red/X, so a case-insensitive table, which would
have to send both spellings to red/X, disagrees with the code. -/
theorem C1_case_insensitive_counterexample :
    severityOf (some "failed") = ⟨"#d5dbdb", ":grey_exclamation:"⟩ ∧
    severityOf (some "FAILED") = ⟨"#d13212", ":x:"⟩ ∧
    (⟨"#d5dbdb", ":grey_exclamation:"⟩ : Severity) ≠ ⟨"#d13212", ":x:"⟩ := by
  refine ⟨by decide, by decide, by decide⟩

/-- C1, amended: the severity mapping is a total, case-sensitive
table: states exactly equal to STARTED or RESUMED map to the blue
color and cycle icon, FAILED to the red color and X icon, SUPERSEDED
and CANCELED to the gray color and warning icon, SUCCEEDED to the
green color and check icon, and any other string, including other
casings, or a missing state maps to the default gray color and warning
icon; the rendered attachment carries exactly that color. -/
theorem C1_severity_table_case_sensitive (s : Option String) (ch : String)
    (e : PipelineEvent) :
    (severityOf s).color = (specSeverityTable s).1 ∧
    (severityOf s).icon = (specSeverityTable s).2 ∧
    ∃ a, (slackMessageOf ch e).attachments = [a] ∧
      a.color = (severityOf e.detail.state).color := by
  refine ⟨?_, ?_, ?_⟩
  · unfold severityOf specSeverityTable
    split_ifs <;> simp_all
  · unfold severityOf specSeverityTable
    split_ifs <;> simp_all
  · unfold slackMessageOf
    by_cases h1 : jsTruthy e.detail.action = true
    · simp only [h1, if_true]
      exact ⟨_, rfl, rfl⟩
    · simp only [eq_false_of_ne_true h1, if_false]
      by_cases h2 : jsTruthy e.detail.stage = true
      · simp only [h2, if_true]
        exact ⟨_, rfl, rfl⟩
      · simp only [eq_false_of_ne_true h2, if_false]
        exact ⟨_, rfl, rfl⟩

/-- C2: granularity selection is mutually exclusive with the first
match winning.  When detail.action is truthy the message is
Action-level: title pipeline, a bar, stage; body icon, action text,
state in emphasis markup.  Otherwise, when detail.stage is truthy, the
message is Stage-level with the same title and body icon plus the
state in emphasis, without the action text.  Otherwise the message is
Pipeline-level and the title equals exactly the pipeline name. -/
theorem C2_granularity_selection (ch : String) (e : PipelineEvent) :
    (jsTruthy e.detail.action = true →
      ∃ a, (slackMessageOf ch e).attachments = [a] ∧
        a.title = e.detail.pipeline ++ " | " ++ jsStr e.detail.stage ∧
        a.text = (severityOf e.detail.state).icon ++ " " ++ jsStr e.detail.action
          ++ " *" ++ jsStr e.detail.state ++ "*") ∧
    (jsTruthy e.detail.action = false → jsTruthy e.detail.stage = true →
      ∃ a, (slackMessageOf ch e).attachments = [a] ∧
        a.title = e.detail.pipeline ++ " | " ++ jsStr e.detail.stage ∧
        a.text = (severityOf e.detail.state).icon ++ " *"
          ++ jsStr e.detail.state ++ "*") ∧
    (jsTruthy e.detail.action = false → jsTruthy e.detail.stage = false →
      ∃ a, (slackMessageOf ch e).attachments = [a] ∧
        a.title = e.detail.pipeline ∧
        a.text = (severityOf e.detail.state).icon ++ " *"
          ++ jsStr e.detail.state ++ "*") := by
  refine ⟨fun h1 => ?_, fun h1 h2 => ?_, fun h1 h2 => ?_⟩
  · unfold slackMessageOf
    simp only [h1, if_true]
    exact ⟨_, rfl, rfl, rfl⟩
  · unfold slackMessageOf
    simp only [h1, h2, if_true, if_false]
    exact ⟨_, rfl, rfl, rfl⟩
  · unfold slackMessageOf
    simp only [h1, h2, if_false]
    exact ⟨_, rfl, rfl, rfl⟩

/-- C2, witness: the three granularities at concrete events. -/
theorem C2_granularity_selection_witness :
    (∃ a, (slackMessageOf "chan" sampleActionEvent).attachments = [a] ∧
      a.title = sampleActionEvent.detail.pipeline ++ " | "
        ++ jsStr sampleActionEvent.detail.stage ∧
      a.text = (severityOf sampleActionEvent.detail.state).icon ++ " "
        ++ jsStr sampleActionEvent.detail.action ++ " *"
        ++ jsStr sampleActionEvent.detail.state ++ "*") ∧
    (∃ a, (slackMessageOf "chan" sampleStageEvent).attachments = [a] ∧
      a.title = sampleStageEvent.detail.pipeline ++ " | "
        ++ jsStr sampleStageEvent.detail.stage ∧
      a.text = (severityOf sampleStageEvent.detail.state).icon ++ " *"
        ++ jsStr sampleStageEvent.detail.state ++ "*") ∧
    (∃ a, (slackMessageOf "chan" samplePipelineEvent).attachments = [a] ∧
      a.title = samplePipelineEvent.detail.pipeline ∧
      a.text = (severityOf samplePipelineEvent.detail.state).icon ++ " *"
        ++ jsStr samplePipelineEvent.detail.state ++ "*") :=
  ⟨(C2_granularity_selection "chan" sampleActionEvent).1 (by decide),
   (C2_granularity_selection "chan" sampleStageEvent).2.1 (by decide) (by decide),
   (C2_granularity_selection "chan" samplePipelineEvent).2.2 (by decide) (by decide)⟩

/-- C5: the timestamp attached to the rendered message equals the
parsed milliseconds-since-epoch divided by 1000 as an exact rational,
with no rounding; at the parse 1500 of the instant one and a half
seconds past the epoch, the rendered timestamp is 1.5 and not 1500. -/
theorem C5_timestamp_epoch_seconds (ch : String) (e : PipelineEvent) :
    (∃ a, (slackMessageOf ch e).attachments = [a] ∧
      a.ts = (e.timeMs : ℚ) / 1000) ∧
    (e.timeMs = 1500 →
      ∃ a, (slackMessageOf ch e).attachments = [a] ∧
        a.ts = 3 / 2 ∧ a.ts ≠ 1500) := by
  constructor
  · unfold slackMessageOf
    by_cases h1 : jsTruthy e.detail.action = true
    · simp only [h1, if_true]
      exact ⟨_, rfl, rfl⟩
    · simp only [eq_false_of_ne_true h1, if_false]
      by_cases h2 : jsTruthy e.detail.stage = true
      · simp only [h2, if_true]
        exact ⟨_, rfl, rfl⟩
      · simp only [eq_false_of_ne_true h2, if_false]
        exact ⟨_, rfl, rfl⟩
  · intro ht
    unfold slackMessageOf
    by_cases h1 : jsTruthy e.detail.action = true
    · simp only [h1, if_true]
      exact ⟨_, rfl, by rw [ht]; norm_num, by rw [ht]; norm_num⟩
    · simp only [eq_false_of_ne_true h1, if_false]
      by_cases h2 : jsTruthy e.detail.stage = true
      · simp only [h2, if_true]
        exact ⟨_, rfl, by rw [ht]; norm_num, by rw [ht]; norm_num⟩
      · simp only [eq_false_of_ne_true h2, if_false]
        exact ⟨_, rfl, by rw [ht]; norm_num, by rw [ht]; norm_num⟩

/-- C5, witness: at the sample event with parsed time 1500
milliseconds the rendered timestamp is exactly 1.5 seconds. -/
theorem C5_timestamp_epoch_seconds_witness :
    ∃ a, (slackMessageOf "chan" sampleActionEvent).attachments = [a] ∧
      a.ts = 3 / 2 ∧ a.ts ≠ 1500 :=
  (C5_timestamp_epoch_seconds "chan" sampleActionEvent).2 rfl

/-- C6: the renderer is a total function on PipelineEvent: it always
produces a message with exactly one attachment, and when detail.state
is absent or not one of the six named states, the severity falls back
to the default gray color and warning icon. -/
theorem C6_renderer_total_default_fallback (ch : String) (e : PipelineEvent) :
    (slackMessageOf ch e).attachments.length = 1 ∧
    (e.detail.state ∉ namedStates →
      severityOf e.detail.state = ⟨"#d5dbdb", ":grey_exclamation:"⟩ ∧
      ∃ a, (slackMessageOf ch e).attachments = [a] ∧
        a.color = "#d5dbdb") := by
  constructor
  · unfold slackMessageOf
    by_cases h1 : jsTruthy e.detail.action = true
    · simp only [h1, if_true]; rfl
    · simp only [eq_false_of_ne_true h1, if_false]
      by_cases h2 : jsTruthy e.detail.stage = true
      · simp only [h2, if_true]; rfl
      · simp only [eq_false_of_ne_true h2, if_false]; rfl
  · intro hs
    have hdef : severityOf e.detail.state = ⟨"#d5dbdb", ":grey_exclamation:"⟩ := by
      unfold severityOf
      simp only [namedStates, List.mem_cons, List.not_mem_nil, or_false] at hs
      push_neg at hs
      obtain ⟨n1, n2, n3, n4, n5, n6⟩ := hs
      simp [n1, n2, n3, n4, n5, n6]
    refine ⟨hdef, ?_⟩
    unfold slackMessageOf
    by_cases h1 : jsTruthy e.detail.action = true
    · simp only [h1, if_true]
      exact ⟨_, rfl, by rw [hdef]⟩
    · simp only [eq_false_of_ne_true h1, if_false]
      by_cases h2 : jsTruthy e.detail.stage = true
      · simp only [h2, if_true]
        exact ⟨_, rfl, by rw [hdef]⟩
      · simp only [eq_false_of_ne_true h2, if_false]
        exact ⟨_, rfl, by rw [hdef]⟩

/-- C6, witness: the pipeline-level sample event has no state at all
and still renders one attachment with the default styling. -/
theorem C6_renderer_total_default_fallback_witness :
    severityOf samplePipelineEvent.detail.state
        = ⟨"#d5dbdb", ":grey_exclamation:"⟩ ∧
    ∃ a, (slackMessageOf "chan" samplePipelineEvent).attachments = [a] ∧
      a.color = "#d5dbdb" :=
  (C6_renderer_total_default_fallback "chan" samplePipelineEvent).2 (by decide)

/-- C9: rendering is deterministic and idempotent: two renderings of
the same event under the same configured channel are structurally
identical messages. -/
theorem C9_render_deterministic (ch : String) (e : PipelineEvent)
    (m1 m2 : SlackMessage)
    (h1 : m1 = slackMessageOf ch e) (h2 : m2 = slackMessageOf ch e) :
    m1 = m2 :=
  h1.trans h2.symm

/-- C9, witness: two renderings of the sample event are equal. -/
theorem C9_render_deterministic_witness :
    slackMessageOf "chan" sampleActionEvent
      = slackMessageOf "chan" sampleActionEvent :=
  C9_render_deterministic "chan" sampleActionEvent _ _ rfl rfl

/-- C10: presence of action and stage is JavaScript truthiness, not
field existence: an event whose action is the empty string renders
exactly as the same event with the action field absent, and when its
stage is also the empty string it renders exactly as the same event
with both fields absent. -/
theorem C10_empty_action_falls_through (ch : String) (e : PipelineEvent)
    (h : e.detail.action = some "") :
    slackMessageOf ch e
        = slackMessageOf ch { e with detail := { e.detail with action := none } } ∧
    (e.detail.stage = some "" →
      slackMessageOf ch e
        = slackMessageOf ch
            { e with detail := { e.detail with action := none, stage := none } }) := by
  constructor
  · simp [slackMessageOf, h, jsTruthy]
  · intro hs
    simp [slackMessageOf, h, hs, jsTruthy]

/-- C10, witness: the sample event with an empty action string renders
as its action-free variant. -/
theorem C10_empty_action_falls_through_witness :
    slackMessageOf "chan" sampleEmptyActionEvent
      = slackMessageOf "chan"
          { sampleEmptyActionEvent with
            detail := { sampleEmptyActionEvent.detail with action := none } } :=
  (C10_empty_action_falls_through "chan" sampleEmptyActionEvent rfl).1

/-- C4: classification of the delivery response: a status below 400
completes with no error, a status of at least 400 and below 500 also
completes with no error, and a status of 500 or more completes with an
error string carrying the HTTP status and status message. -/
theorem C4_response_classification (ch : String) (e : PipelineEvent)
    (r : HttpResponse) :
    (r.statusCode < 400 → (processEvent ch e r).2 = none) ∧
    (400 ≤ r.statusCode → r.statusCode < 500 → (processEvent ch e r).2 = none) ∧
    (500 ≤ r.statusCode → (processEvent ch e r).2 =
      some ("Server error when processing message: " ++ toString r.statusCode
        ++ " - " ++ r.statusMessage)) := by
  refine ⟨fun h => ?_, fun h1 h2 => ?_, fun h => ?_⟩
  · simp [processEvent, processResponse, h]
  · simp [processEvent, processResponse, h2]
  · simp only [processEvent, processResponse]
    rw [if_neg (by omega), if_neg (by omega)]

/-- C4, witness: status 200 completes clean, status 404 completes
clean, status 503 completes with the retryable error string. -/
theorem C4_response_classification_witness :
    (processEvent "chan" sampleActionEvent ⟨200, "OK"⟩).2 = none ∧
    (processEvent "chan" sampleActionEvent ⟨404, "Not Found"⟩).2 = none ∧
    (processEvent "chan" sampleActionEvent ⟨503, "Service Unavailable"⟩).2 =
      some ("Server error when processing message: " ++ toString (503 : Nat)
        ++ " - " ++ "Service Unavailable") :=
  ⟨(C4_response_classification "chan" sampleActionEvent ⟨200, "OK"⟩).1 (by decide),
   (C4_response_classification "chan" sampleActionEvent ⟨404, "Not Found"⟩).2.1
     (by decide) (by decide),
   (C4_response_classification "chan" sampleActionEvent
     ⟨503, "Service Unavailable"⟩).2.2 (by decide)⟩

/-- C3, the code evaluated at the failing input: a fresh process, a
configured secret identifier, and a store reply carrying only a binary
secret whose base64 payload decodes to hooks.  The handler does decode
the binary value into decodedBinarySecret, but builds the webhook URL
from the still-undefined secret variable, so delivery goes to
https://undefined and not to https:// followed by the decoded
value. -/
theorem C3_binary_secret_decoded_but_not_used :
    ((handler ⟨"chan", some "arn"⟩ freshState
        (.ok ⟨none, some "aG9va3M="⟩) sampleStageEvent ⟨200, "OK"⟩).1
      = .delivered "https://undefined"
          (slackMessageOf "chan" sampleStageEvent)
          (processResponse ⟨200, "OK"⟩)) ∧
    ((handler ⟨"chan", some "arn"⟩ freshState
        (.ok ⟨none, some "aG9va3M="⟩) sampleStageEvent ⟨200, "OK"⟩).2.1
      = ⟨some "https://undefined", none, some "hooks"⟩) ∧
    bufferBase64ToAscii "aG9va3M=" = "hooks" ∧
    ("https://undefined" : String) ≠ "https://" ++ bufferBase64ToAscii "aG9va3M=" :=
  ⟨rfl, by decide, by decide, by decide⟩

/-- C7: when the cached webhook URL is not truthy and no secret
identifier is configured, the handler immediately passes the fixed
configuration error to the callback, makes no secret-store call,
renders nothing, delivers nothing, and leaves the state unchanged. -/
theorem C7_no_config_immediate_error (cfg : Config) (st : ProcState)
    (store : SecretsResult) (e : PipelineEvent) (r : HttpResponse)
    (h1 : jsTruthy st.webhookUrl = false)
    (h2 : jsTruthy cfg.webhookUrlSecretArn = false) :
    handler cfg st store e r = (.noConfig "Hook URL has not been set.", st, 0) := by
  unfold handler
  simp [h1, h2]

/-- C7, witness: a fresh process with no configured secret identifier
fails with the fixed configuration error. -/
theorem C7_no_config_immediate_error_witness :
    handler ⟨"chan", none⟩ freshState (.ok ⟨some "s", none⟩)
        samplePipelineEvent ⟨200, "OK"⟩
      = (.noConfig "Hook URL has not been set.", freshState, 0) :=
  C7_no_config_immediate_error ⟨"chan", none⟩ freshState (.ok ⟨some "s", none⟩)
    samplePipelineEvent ⟨200, "OK"⟩ rfl rfl

/-- C8: the cache is written at most once per process.  First, an
invocation that finds a cached nonempty URL performs zero secret-store
calls, delivers to exactly that URL, and returns the state unchanged,
neither overwriting nor invalidating the cache.  Second, a resolving
invocation, one that finds no truthy cache, has a configured secret
identifier and receives a data record from the store, caches a URL of
the truthy form https:// followed by some string, after exactly one
secret-store call, so every later invocation is of the first kind. -/
theorem C8_cache_write_once (cfg : Config) (st : ProcState)
    (store : SecretsResult) (e : PipelineEvent) (r : HttpResponse) :
    (∀ u, st.webhookUrl = some u → u ≠ "" →
      handler cfg st store e r
        = (.delivered u (slackMessageOf cfg.channel e) (processResponse r),
           st, 0)) ∧
    (∀ data, jsTruthy st.webhookUrl = false →
      jsTruthy cfg.webhookUrlSecretArn = true → store = .ok data →
      ∃ v, (handler cfg st store e r).2.1.webhookUrl = some ("https://" ++ v) ∧
        (handler cfg st store e r).2.2 = 1) := by
  constructor
  · intro u hu hne
    unfold handler
    rw [hu]
    simp [jsTruthy, jsStr, hne]
  · intro data h1 h2 hstore
    subst hstore
    rcases data with ⟨ss, sb⟩
    cases ss with
    | some s =>
      exact ⟨s, by simp [handler, h1, h2, jsStr], by simp [handler, h1, h2]⟩
    | none =>
      exact ⟨jsStr st.secret, by simp [handler, h1, h2], by simp [handler, h1, h2]⟩

/-- C8, witness: a cached invocation keeps the state and makes zero
secret-store calls; a resolving invocation caches a truthy URL with
one secret-store call. -/
theorem C8_cache_write_once_witness :
    (handler ⟨"chan", some "arn"⟩ ⟨some "https://hooks", none, none⟩
        (.ok ⟨some "s", none⟩) sampleStageEvent ⟨200, "OK"⟩
      = (.delivered "https://hooks" (slackMessageOf "chan" sampleStageEvent)
           (processResponse ⟨200, "OK"⟩),
         ⟨some "https://hooks", none, none⟩, 0)) ∧
    (∃ v, (handler ⟨"chan", some "arn"⟩ freshState (.ok ⟨some "s", none⟩)
        sampleStageEvent ⟨200, "OK"⟩).2.1.webhookUrl = some ("https://" ++ v) ∧
      (handler ⟨"chan", some "arn"⟩ freshState (.ok ⟨some "s", none⟩)
        sampleStageEvent ⟨200, "OK"⟩).2.2 = 1) :=
  ⟨(C8_cache_write_once ⟨"chan", some "arn"⟩ ⟨some "https://hooks", none, none⟩
      (.ok ⟨some "s", none⟩) sampleStageEvent ⟨200, "OK"⟩).1
      "https://hooks" rfl (by decide),
   (C8_cache_write_once ⟨"chan", some "arn"⟩ freshState
      (.ok ⟨some "s", none⟩) sampleStageEvent ⟨200, "OK"⟩).2
      ⟨some "s", none⟩ rfl rfl rfl⟩

end SlackNotify
